import Mathlib

/-!
Verification of the methane-combustion PINN configuration script
(`methane_combustion_pinn.py`) against its design specification.

The script is configuration glue over an external PDE/deep-learning library
(DeepXDE): it defines a space-time domain, a PDE residual, six
initial/boundary conditions, a network architecture, and training
hyperparameters.  We embed those definitions shallowly:

* Exact rational scalars model the floating-point field values and
  constants (every literal of the script is an exact decimal); the external
  exponential `dde.math.exp` is threaded through as an explicit function
  argument `ex : ℚ → ℚ` (it is a capability of the external library, not
  code of the script), so every definition stays executable.
* A batch of collocation points is a `List` of records carrying the field
  values and the six partial derivatives that the external autodiff engine
  supplies to the residual function.
* The declarative library objects (`DirichletBC`, `IC`, `TimePDE`, `FNN`,
  compiled model) are embedded as records holding exactly the data the
  script passes to their constructors.
* The fixed-iteration training run followed by the checkpoint save is
  embedded as an event trace parametrised by the (arbitrary, possibly
  non-finite) loss value of each iteration.
-/

namespace MethaneCombustion

/-- Length of the combustion chamber (normalized); `L = 1.0` in the script. -/
def L : ℚ := 1.0

/-- Final time (normalized); `T_final = 1.0` in the script. -/
def T_final : ℚ := 1.0

/-- Advection velocity `u = 1.0`. -/
def u : ℚ := 1.0

/-- Diffusion coefficient for species `D = 0.01`. -/
def D : ℚ := 0.01

/-- Thermal diffusivity `alpha = 0.01`. -/
def alpha : ℚ := 0.01

/-- Pre-exponential factor for reaction rate `k = 10.0`. -/
def k : ℚ := 10.0

/-- Activation energy `Ea = 50.0`. -/
def Ea : ℚ := 50.0

/-- Universal gas constant (normalized) `R = 1.0`. -/
def R : ℚ := 1.0

/-- Heat release term `Q = 10.0`. -/
def Q : ℚ := 10.0

/-- One row of the batch handed to the residual function `pde(x, y)`:
the two field values `y[:, 0:1]`, `y[:, 1:2]` and the six partial
derivatives that `dde.grad.jacobian` / `dde.grad.hessian` supply. -/
structure PDEPoint where
  Y : ℚ
  Temp : ℚ
  Y_t : ℚ
  Y_x : ℚ
  Y_xx : ℚ
  T_t : ℚ
  T_x : ℚ
  T_xx : ℚ

/-- Line 32 of the script: `reaction_rate = k * Y * dde.math.exp(-Ea / (R * temp))`.
The external exponential is the argument `ex`. -/
def reaction_rate (ex : ℚ → ℚ) (Y Temp : ℚ) : ℚ :=
  k * Y * ex (-Ea / (R * Temp))

/-- Line 34 of the script: `eq_Y = Y_t + u * Y_x - D * Y_xx + reaction_rate`. -/
def eq_Y (ex : ℚ → ℚ) (p : PDEPoint) : ℚ :=
  p.Y_t + u * p.Y_x - D * p.Y_xx + reaction_rate ex p.Y p.Temp

/-- Line 35 of the script: `eq_T = T_t + u * T_x - alpha * T_xx - Q * reaction_rate`. -/
def eq_T (ex : ℚ → ℚ) (p : PDEPoint) : ℚ :=
  p.T_t + u * p.T_x - alpha * p.T_xx - Q * reaction_rate ex p.Y p.Temp

/-- The residual function `pde` of the script, applied to a batch: it
returns the two residual columns `[eq_Y, eq_T]`, evaluated elementwise over
the batch (all tensor operations in the source are elementwise). -/
def pde (ex : ℚ → ℚ) (batch : List PDEPoint) : List ℚ × List ℚ :=
  (batch.map (eq_Y ex), batch.map (eq_T ex))

/-- The first residual exactly as the spec words it:
`residual_Y = ∂Y/∂t + u·∂Y/∂x − D·∂²Y/∂x² + reaction_rate` with
`reaction_rate = k · Y · exp(−Ea / (R · Temp))`. -/
def residual_Y_spec (ex : ℚ → ℚ) (p : PDEPoint) : ℚ :=
  p.Y_t + u * p.Y_x - D * p.Y_xx + k * p.Y * ex (-Ea / (R * p.Temp))

/-- The second residual exactly as the spec words it:
`residual_T = ∂T/∂t + u·∂T/∂x − α·∂²T/∂x² − Q·reaction_rate`. -/
def residual_T_spec (ex : ℚ → ℚ) (p : PDEPoint) : ℚ :=
  p.T_t + u * p.T_x - alpha * p.T_xx - Q * (k * p.Y * ex (-Ea / (R * p.Temp)))

/-- Default absolute tolerance of `np.isclose`. -/
def atol : ℚ := 1e-8

/-- Default relative tolerance of `np.isclose`. -/
def rtol : ℚ := 1e-5

/-- `np.isclose(a, b)` with default tolerances, per NumPy's documented
criterion `absolute(a - b) <= (atol + rtol * absolute(b))`. -/
def isclose (a b : ℚ) : Prop :=
  |a - b| ≤ atol + rtol * |b|

/-- Line 49 of the script: `boundary_left(x, on_boundary)` returns
`on_boundary and np.isclose(x[0], 0.0)`; a point is the pair
(spatial coordinate, time), so `x[0]` is the first component. -/
def boundary_left (x : ℚ × ℚ) (on_boundary : Bool) : Prop :=
  on_boundary = true ∧ isclose x.1 0.0

/-- Line 53 of the script: `boundary_right(x, on_boundary)` returns
`on_boundary and np.isclose(x[0], L)`. -/
def boundary_right (x : ℚ × ℚ) (on_boundary : Bool) : Prop :=
  on_boundary = true ∧ isclose x.1 L

/-- `init_cond_Y(x) = np.ones((len(x), 1))`: one target value `1` per
sampled point. -/
def init_cond_Y (x : List (ℚ × ℚ)) : List ℚ :=
  List.replicate x.length 1

/-- `init_cond_T(x) = np.ones((len(x), 1))`. -/
def init_cond_T (x : List (ℚ × ℚ)) : List ℚ :=
  List.replicate x.length 1

end MethaneCombustion

namespace MethaneCombustion

/-- A Dirichlet boundary condition as constructed by
`dde.DirichletBC(geomtime, func, on_region, component)`: the target-value
function, the region predicate and the constrained output component. -/
structure DirichletBC where
  func : ℚ × ℚ → ℚ
  on_region : ℚ × ℚ → Bool → Prop
  component : ℕ

/-- An initial condition as constructed by
`dde.IC(geomtime, func, on_initial, component)`; the target function acts
on a batch of points, as `init_cond_Y` / `init_cond_T` do. -/
structure IC where
  func : List (ℚ × ℚ) → List ℚ
  on_region : ℚ × ℚ → Bool → Prop
  component : ℕ

/-- `bc_Y_left = dde.DirichletBC(geomtime, lambda x: 1.0, boundary_left, component=0)`. -/
def bc_Y_left : DirichletBC :=
  ⟨fun _ => 1.0, boundary_left, 0⟩

/-- `bc_Y_right = dde.DirichletBC(geomtime, lambda x: 0.0, boundary_right, component=0)`. -/
def bc_Y_right : DirichletBC :=
  ⟨fun _ => 0.0, boundary_right, 0⟩

/-- `bc_T_left = dde.DirichletBC(geomtime, lambda x: 1.0, boundary_left, component=1)`. -/
def bc_T_left : DirichletBC :=
  ⟨fun _ => 1.0, boundary_left, 1⟩

/-- `bc_T_right = dde.DirichletBC(geomtime, lambda x: 1.0, boundary_right, component=1)`. -/
def bc_T_right : DirichletBC :=
  ⟨fun _ => 1.0, boundary_right, 1⟩

/-- `ic_Y = dde.IC(geomtime, init_cond_Y, lambda _, on_initial: on_initial, component=0)`. -/
def ic_Y : IC :=
  ⟨init_cond_Y, fun _ on_initial => on_initial = true, 0⟩

/-- `ic_T = dde.IC(geomtime, init_cond_T, lambda _, on_initial: on_initial, component=1)`. -/
def ic_T : IC :=
  ⟨init_cond_T, fun _ on_initial => on_initial = true, 1⟩

/-- A condition passed to `dde.data.TimePDE` is either an initial or a
Dirichlet boundary condition. -/
inductive Condition
  | ic (c : IC)
  | bc (c : DirichletBC)

/-- The list of six conditions, in the order the script passes them:
`[ic_Y, ic_T, bc_Y_left, bc_Y_right, bc_T_left, bc_T_right]`. -/
def conditions : List Condition :=
  [.ic ic_Y, .ic ic_T, .bc bc_Y_left, .bc bc_Y_right, .bc bc_T_left, .bc bc_T_right]

/-- A spatial interval as built by `dde.geometry.Interval(0, L)`. -/
structure Interval where
  left : ℚ
  right : ℚ
deriving DecidableEq

/-- A time interval as built by `dde.geometry.TimeDomain(0, T_final)`. -/
structure TimeDomain where
  t0 : ℚ
  t1 : ℚ
deriving DecidableEq

/-- The space-time product built by `dde.geometry.GeometryXTime(...)`. -/
structure GeometryXTime where
  geometry : Interval
  timedomain : TimeDomain
deriving DecidableEq

/-- `spatial_domain = dde.geometry.Interval(0, L)`. -/
def spatial_domain : Interval := ⟨0, L⟩

/-- `temporal_domain = dde.geometry.TimeDomain(0, T_final)`. -/
def temporal_domain : TimeDomain := ⟨0, T_final⟩

/-- `geomtime = dde.geometry.GeometryXTime(spatial_domain, temporal_domain)`. -/
def geomtime : GeometryXTime := ⟨spatial_domain, temporal_domain⟩

/-- Failure condition of domain construction. -/
inductive DomainError
  | invalidDomain
deriving DecidableEq

/-- Modelled from the spec: the script delegates domain construction to the
external geometry library, and the validation itself is not part of the
script's source; the spec's Domain Descriptor contract states "No errors
expected for valid L,T>0; fails with an InvalidDomain condition if L≤0 or
T≤0" and "Invalid domain parameters (L≤0, T≤0): fail fast before problem
assembly". -/
def make_geomtime (len tfin : ℚ) : Except DomainError GeometryXTime :=
  if len ≤ 0 ∨ tfin ≤ 0 then .error .invalidDomain
  else .ok ⟨⟨0, len⟩, ⟨0, tfin⟩⟩

/-- The sampled training problem as assembled by `dde.data.TimePDE(...)`:
the record holds exactly the arguments the script passes. -/
structure TimePDE where
  geom : GeometryXTime
  residual : (ℚ → ℚ) → List PDEPoint → List ℚ × List ℚ
  conditions : List Condition
  num_domain : ℕ
  num_boundary : ℕ
  num_initial : ℕ
  solution : Option ((ℚ × ℚ) → ℚ × ℚ)
  num_test : ℕ

/-- Lines 71-80 of the script: the `dde.data.TimePDE` call with
`num_domain=2540`, `num_boundary=80`, `num_initial=160`, `solution=None`,
`num_test=10000`. -/
def data : TimePDE :=
  ⟨geomtime, pde, conditions, 2540, 80, 160, none, 10000⟩

/-- A fully-connected network as built by
`dde.nn.FNN(layer_sizes, activation, kernel_initializer)`. -/
structure FNN where
  layer_sizes : List ℕ
  activation : String
  kernel_initializer : String
deriving DecidableEq

/-- Line 82 of the script: `dde.nn.FNN([2] + [50] * 3 + [2], "tanh",
"Glorot normal")`. -/
def net : FNN :=
  ⟨[2] ++ List.replicate 3 50 ++ [2], "tanh", "Glorot normal"⟩

/-- `model = dde.Model(data, net)`. -/
structure Model where
  data : TimePDE
  net : FNN

/-- The model after `model.compile("adam", lr=1e-3)`: the optimizer name
and learning rate the script passes. -/
structure CompiledModel where
  model : Model
  optimizer : String
  lr : ℚ

/-- Line 84 of the script: `dde.Model(data, net)`. -/
def model : Model := ⟨data, net⟩

/-- Line 85 of the script: `model.compile("adam", lr=1e-3)`. -/
def compiled_model : CompiledModel := ⟨model, "adam", 1e-3⟩

/-- Line 87 of the script: the iteration budget `model.train(iterations=5000)`. -/
def train_iterations : ℕ := 5000

/-- Line 88 of the script: the artifact name in `model.save("model_checkpoint")`. -/
def checkpoint_name : String := "model_checkpoint"

/-- The loss value observed at one training iteration; `nonFinite` stands
for a NaN/Inf loss of a diverged run.  The script never inspects these
values. -/
inductive LossVal
  | finite (x : ℚ)
  | nonFinite

/-- An observable event of the run: one optimizer step (with whatever loss
the external engine produced), or the write of a checkpoint artifact. -/
inductive Event
  | train_step (i : ℕ) (loss : LossVal)
  | save (path : String)

/-- Recognizes checkpoint-write events. -/
def is_save : Event → Bool
  | .save _ => true
  | _ => false

/-- Recognizes optimizer-step events. -/
def is_train_step : Event → Bool
  | .train_step _ _ => true
  | _ => false

/-- Lines 87-88 of the script: `model.train(iterations=5000)` followed
unconditionally by `model.save("model_checkpoint")`.  The training loop is
the external library's fixed-iteration run mode: it emits one step per
iteration with the loss values `losses` produced by the optimizer (the
script passes no callback, early-stopping rule or checkpoint selection, so
the trace does not depend on the losses). -/
def main_run (losses : ℕ → LossVal) : List Event :=
  ((List.range train_iterations).map fun i => Event.train_step i (losses i))
    ++ [Event.save checkpoint_name]

end MethaneCombustion

namespace MethaneCombustion

/-- C1: The PDE residual function, applied to a batch point with field
values (Y, Temp) and supplied partial derivatives, returns exactly the pair
(residual_Y, residual_T) with
`residual_Y = ∂Y/∂t + u·∂Y/∂x − D·∂²Y/∂x² + reaction_rate` and
`residual_T = ∂T/∂t + u·∂T/∂x − α·∂²T/∂x² − Q·reaction_rate`, where
`reaction_rate = k·Y·exp(−Ea/(R·Temp))`, for every input batch (and any
exponential the external library supplies). -/
theorem pde_returns_spec_residuals (ex : ℚ → ℚ) (batch : List PDEPoint) :
    pde ex batch = (batch.map (residual_Y_spec ex), batch.map (residual_T_spec ex)) :=
  rfl

/-- C2: With the program's constants `Ea = 50.0`, `R = 1.0`, `k = 10.0`,
the closed-form reaction rate at `Y = 1`, `Temp = 1` equals
`10 · 1 · exp(−50)` — for every exponential function the external library
could supply, hence independently of any network. -/
theorem reaction_rate_regression_value (ex : ℚ → ℚ) :
    reaction_rate ex 1 1 = 10 * 1 * ex (-50) := by
  norm_num [reaction_rate, k, Ea, R]

/-- C2 witness: the regression identity instantiated at a concrete
exponential function. -/
theorem reaction_rate_regression_value_witness :
    reaction_rate (fun q => q) 1 1 = 10 * 1 * (-50 : ℚ) :=
  reaction_rate_regression_value fun q => q

/-- C3: The six initial/boundary condition constraints carry exactly the
stated target values and component indices: the initial conditions target
`Y = 1` (component 0) and `Temp = 1` (component 1) at every sampled point;
at `x = 0` the targets are `Y = 1` and `Temp = 1`; at `x = L` the targets
are `Y = 0` and `Temp = 1`. -/
theorem conditions_targets_and_components :
    conditions = [.ic ic_Y, .ic ic_T, .bc bc_Y_left, .bc bc_Y_right,
      .bc bc_T_left, .bc bc_T_right] ∧
    conditions.length = 6 ∧
    ic_Y.component = 0 ∧ ic_T.component = 1 ∧
    (∀ xs, ic_Y.func xs = List.replicate xs.length 1) ∧
    (∀ xs, ic_T.func xs = List.replicate xs.length 1) ∧
    bc_Y_left.component = 0 ∧ bc_Y_left.on_region = boundary_left ∧
    (∀ p, bc_Y_left.func p = 1) ∧
    bc_Y_right.component = 0 ∧ bc_Y_right.on_region = boundary_right ∧
    (∀ p, bc_Y_right.func p = 0) ∧
    bc_T_left.component = 1 ∧ bc_T_left.on_region = boundary_left ∧
    (∀ p, bc_T_left.func p = 1) ∧
    bc_T_right.component = 1 ∧ bc_T_right.on_region = boundary_right ∧
    (∀ p, bc_T_right.func p = 1) := by
  refine ⟨rfl, rfl, rfl, rfl, fun _ => rfl, fun _ => rfl, rfl, rfl,
    fun _ => ?_, rfl, rfl, fun _ => ?_, rfl, rfl, fun _ => ?_, rfl, rfl,
    fun _ => ?_⟩ <;>
  norm_num [bc_Y_left, bc_Y_right, bc_T_left, bc_T_right]

/-- C4: Domain construction fails with an `InvalidDomain` condition for
every parameter pair with `L ≤ 0` or `T ≤ 0`, and raises no error for
`L > 0`, `T > 0`. -/
theorem domain_validation (len tfin : ℚ) :
    ((len ≤ 0 ∨ tfin ≤ 0) → make_geomtime len tfin = .error .invalidDomain) ∧
    (0 < len → 0 < tfin → make_geomtime len tfin = .ok ⟨⟨0, len⟩, ⟨0, tfin⟩⟩) := by
  constructor
  · intro h
    simp [make_geomtime, h]
  · intro h1 h2
    have hn : ¬(len ≤ 0 ∨ tfin ≤ 0) := by push_neg; exact ⟨h1, h2⟩
    simp [make_geomtime, hn]

/-- C4 witness: an invalid pair is rejected and the program's own
constants `L = 1.0`, `T_final = 1.0` yield exactly `geomtime`. -/
theorem domain_validation_witness :
    make_geomtime (-1) 1 = .error .invalidDomain ∧
    make_geomtime L T_final = .ok geomtime :=
  ⟨(domain_validation (-1) 1).1 (Or.inl (by norm_num)),
   (domain_validation L T_final).2 (by norm_num [L]) (by norm_num [T_final])⟩

/-- C5: At the all-zero input point (field values and all six derivatives
zero) both residual components are zero, and the reaction rate is zero
whenever `Y = 0` regardless of `Temp` — including `Temp = 0`, where the
exponential's argument involves a division by zero — for every exponential
the external library could supply. -/
theorem residual_zero_at_zero_point (ex : ℚ → ℚ) :
    (∀ Temp : ℚ, reaction_rate ex 0 Temp = 0) ∧
    reaction_rate ex 0 0 = 0 ∧
    pde ex [⟨0, 0, 0, 0, 0, 0, 0, 0⟩] = ([0], [0]) := by
  refine ⟨fun Temp => ?_, ?_, ?_⟩ <;>
    simp [pde, eq_Y, eq_T, reaction_rate]

/-- C6: The boundary membership predicates use NumPy's tolerance-based
closeness test against `0.0` and `L` (not exact equality: points strictly
inside the tolerance band are accepted), and both require the supplied
`on_boundary` flag to be true. -/
theorem boundary_predicates_tolerance :
    (∀ p : ℚ × ℚ, ∀ ob : Bool,
      boundary_left p ob ↔ ob = true ∧ |p.1 - 0| ≤ 1e-8 + 1e-5 * |(0 : ℚ)|) ∧
    (∀ p : ℚ × ℚ, ∀ ob : Bool,
      boundary_right p ob ↔ ob = true ∧ |p.1 - L| ≤ 1e-8 + 1e-5 * |L|) ∧
    (0 < (1e-9 : ℚ) ∧ boundary_left (1e-9, 0) true) ∧
    ((1 - 1e-9 : ℚ) < L ∧ boundary_right (1 - 1e-9, 0) true) := by
  refine ⟨fun p ob => ?_, fun p ob => ?_, ⟨by norm_num, rfl, ?_⟩,
    ⟨by norm_num [L], rfl, ?_⟩⟩
  · norm_num [boundary_left, isclose, atol, rtol]
  · norm_num [boundary_right, isclose, atol, rtol]
  · norm_num [isclose, atol, rtol, abs_le]
  · norm_num [isclose, atol, rtol, L, abs_le]

/-- C7: Problem assembly combines the domain, the residual function and
exactly the six conditions, requesting 2540 interior collocation points,
80 boundary points, 160 initial-time points and 10000 held-out test
points, with no fitted reference solution supplied. -/
theorem problem_assembly_counts :
    data.geom = geomtime ∧ data.residual = pde ∧
    data.conditions = conditions ∧ data.conditions.length = 6 ∧
    data.num_domain = 2540 ∧ data.num_boundary = 80 ∧
    data.num_initial = 160 ∧ data.solution = none ∧ data.num_test = 10000 :=
  ⟨rfl, rfl, rfl, rfl, rfl, rfl, rfl, rfl, rfl⟩

/-- C8: The network is fully connected with input dimension 2, output
dimension 2, exactly 3 hidden layers of width 50, tanh activation and
Glorot-normal initialization; the model is compiled with the "adam"
optimizer at learning rate 1e-3 and trained for a fixed budget of exactly
5000 iterations — the number of optimizer steps in the run trace is 5000
whatever the loss values are, i.e. there is no early stopping. -/
theorem network_and_training_config :
    net.layer_sizes = [2, 50, 50, 50, 2] ∧
    net.layer_sizes.head? = some 2 ∧
    net.layer_sizes.getLast? = some 2 ∧
    (net.layer_sizes.drop 1).dropLast = List.replicate 3 50 ∧
    net.activation = "tanh" ∧
    net.kernel_initializer = "Glorot normal" ∧
    compiled_model.optimizer = "adam" ∧
    compiled_model.lr = 1e-3 ∧
    train_iterations = 5000 ∧
    (∀ losses : ℕ → LossVal,
      ((main_run losses).filter is_train_step).length = 5000) := by
  refine ⟨rfl, rfl, rfl, rfl, rfl, rfl, rfl, rfl, rfl, fun losses => ?_⟩
  rw [main_run, List.filter_append]
  have hA : ((List.range train_iterations).map
      fun i => Event.train_step i (losses i)).filter is_train_step
      = (List.range train_iterations).map fun i => Event.train_step i (losses i) := by
    rw [List.filter_eq_self]
    intro a ha
    obtain ⟨i, -, rfl⟩ := List.mem_map.mp ha
    rfl
  rw [hA]
  simp [is_train_step, train_iterations]

/-- C9: The run trace contains exactly one checkpoint-write event, named
"model_checkpoint", and it is the last event — for every sequence of loss
values, in particular the everywhere-non-finite one of a diverged run. -/
theorem checkpoint_saved_unconditionally :
    (∀ losses : ℕ → LossVal,
      (main_run losses).filter is_save = [Event.save "model_checkpoint"] ∧
      (main_run losses).getLast? = some (Event.save "model_checkpoint")) ∧
    (main_run fun _ => LossVal.nonFinite).filter is_save
      = [Event.save "model_checkpoint"] := by
  have key : ∀ losses : ℕ → LossVal,
      (main_run losses).filter is_save = [Event.save "model_checkpoint"] := by
    intro losses
    rw [main_run, List.filter_append]
    have hA : ((List.range train_iterations).map
        fun i => Event.train_step i (losses i)).filter is_save = [] := by
      rw [List.filter_eq_nil_iff]
      intro a ha
      obtain ⟨i, -, rfl⟩ := List.mem_map.mp ha
      simp [is_save]
    rw [hA]
    rfl
  refine ⟨fun losses => ⟨key losses, ?_⟩, key _⟩
  rw [main_run]
  exact List.getLast?_concat _

/-- C10: With `L = 1.0` and the default closeness tolerances, no point
satisfies both boundary predicates (the tolerance bands around 0 and L are
disjoint), so the conflicting Dirichlet targets at the two ends are never
assigned to the same point; and both predicates are false whenever the
`on_boundary` flag is false. -/
theorem boundary_predicates_disjoint :
    (∀ p : ℚ × ℚ, ∀ ob : Bool,
      (boundary_left p ob ∧ boundary_right p ob) ↔ False) ∧
    (∀ p : ℚ × ℚ,
      (boundary_left p false ↔ False) ∧ (boundary_right p false ↔ False)) := by
  constructor
  · intro p ob
    simp only [iff_false]
    rintro ⟨⟨-, h1⟩, -, h2⟩
    have hL : L = 1 := by norm_num [L]
    rw [isclose] at h1 h2
    rw [hL] at h2
    norm_num [atol, rtol, abs_le] at h1 h2
    linarith [h1.1, h1.2, h2.1, h2.2]
  · intro p
    constructor <;> simp [boundary_left, boundary_right]

end MethaneCombustion
